import Mathlib

/-!
Verification development for the Spitzer phase-curve tutorial's fitting
pipeline (Question 4 of the notebook): the detector-systematics polynomial,
the combined forward model, the log-posterior with hard priors, the
ensemble-sampler driver with burn-in reset, and the two concrete code cells
of the notebook (the provided phase-curve array and `inversePlanck`).

Real-number arithmetic is embedded exactly (`ℝ`), sequences as `List ℝ`,
and the rejected-proposal sentinel −∞ as `⊥ : EReal`.
-/

noncomputable section

/-- The six coefficients of the second-order 2-D detector-sensitivity
polynomial: constant, x, y, x², y², xy. -/
structure SysCoeffs where
  c0 : ℝ
  c1 : ℝ
  c2 : ℝ
  c3 : ℝ
  c4 : ℝ
  c5 : ℝ

/-- Modelled from the spec: the Question 4b cell is blank in the notebook, so
the Systematics Model is taken from the spec's fixed form
S(x,y) = c0 + c1·x + c2·y + c3·x² + c4·y² + c5·x·y. -/
def sensitivity (c : SysCoeffs) (x y : ℝ) : ℝ :=
  c.c0 + c.c1 * x + c.c2 * y + c.c3 * x ^ 2 + c.c4 * y ^ 2 + c.c5 * x * y

/-- The Systematics Model applied pointwise to the centroid arrays. -/
def sensitivityArr (c : SysCoeffs) (xs ys : List ℝ) : List ℝ :=
  List.zipWith (fun x y => sensitivity c x y) xs ys

/-- Scaling of all six polynomial coefficients by a scalar k. -/
def scaleCoeffs (k : ℝ) (c : SysCoeffs) : SysCoeffs :=
  ⟨k * c.c0, k * c.c1, k * c.c2, k * c.c3, k * c.c4, k * c.c5⟩

/-- The ParameterVector of §3: group (a) astrophysical parameters (two
limb-darkening coefficients, radius ratio, luminosity ratio, two first-order
surface-map coefficients), group (b) the six systematics coefficients, and
group (c) the white-noise parameter σ. -/
structure ParameterVector where
  u1 : ℝ
  u2 : ℝ
  rp : ℝ
  L : ℝ
  y10 : ℝ
  y11 : ℝ
  sys : SysCoeffs
  sigma : ℝ

/-- The fixed orbital elements held by the SystemState, supplied once at
setup and never refit. -/
structure OrbitParams where
  a : ℝ
  inc : ℝ
  porb : ℝ
  ecc : ℝ
  w : ℝ
  tref : ℝ

/-- The refittable part of the SystemState: the star and planet descriptor
fields that the Combined Forward Model overwrites each evaluation. -/
structure FittedParams where
  u1 : ℝ
  u2 : ℝ
  rp : ℝ
  L : ℝ
  y10 : ℝ
  y11 : ℝ

/-- The live SystemState of §3: star/planet descriptors plus fixed orbital
elements. -/
structure SystemState where
  fitted : FittedParams
  orbit : OrbitParams

/-- The star/planet descriptor fields described by a ParameterVector. -/
def fittedOfVector (θ : ParameterVector) : FittedParams :=
  ⟨θ.u1, θ.u2, θ.rp, θ.L, θ.y10, θ.y11⟩

/-- Modelled from the spec: step (b) of the Combined Forward Model (its
Question 4c cell is blank) — update the SystemState's star and planet
descriptors from group (a) of the ParameterVector, keeping the fixed
orbital elements of the previous state. -/
def updateState (prev : SystemState) (θ : ParameterVector) : SystemState :=
  ⟨fittedOfVector θ, prev.orbit⟩

/-- An Observation: equal-length time, flux and centroid sequences, one
entry per exposure. -/
structure Observation where
  times : List ℝ
  flux : List ℝ
  xs : List ℝ
  ys : List ℝ
  flux_len : flux.length = times.length
  xs_len : xs.length = times.length
  ys_len : ys.length = times.length

/-- The number of observations N. -/
def Observation.N (obs : Observation) : ℕ := obs.times.length

/-- The external Astrophysical Flux Model of §4.1, consumed as an interface:
a flux evaluator guaranteed to return a same-length sequence, and the
physical-validity predicate. -/
structure AstroModel where
  flux : SystemState → List ℝ → List ℝ
  flux_len : ∀ s ts, (flux s ts).length = ts.length
  is_physical : SystemState → Bool

/-- Modelled from the spec: the Combined Forward Model (Question 4c cell is
blank) — update the SystemState from the ParameterVector, evaluate the
astrophysical flux over the observation times, evaluate the systematics
sensitivity over the centroid arrays, and return the elementwise product. -/
def combinedModel (astro : AstroModel) (obs : Observation) (prev : SystemState)
    (θ : ParameterVector) : List ℝ :=
  List.zipWith (fun f s => f * s)
    (astro.flux (updateState prev θ) obs.times)
    (sensitivityArr θ.sys obs.xs obs.ys)

/-- The χ² sum Σ ((o_i − p_i)/σ)² over paired observed/predicted fluxes. -/
def chiSq (σ : ℝ) (observed predicted : List ℝ) : ℝ :=
  (List.zipWith (fun o p => ((o - p) / σ) ^ 2) observed predicted).sum

/-- Modelled from the spec: the log-likelihood of §4.4 (the Question 4d cell
is blank) — -0.5·Σ((observed_i − predicted_i)/σ)² − N·log(σ) with the
predicted flux from the Combined Forward Model. -/
def logLike (astro : AstroModel) (obs : Observation) (prev : SystemState)
    (θ : ParameterVector) : ℝ :=
  -0.5 * chiSq θ.sigma obs.flux (combinedModel astro obs prev θ)
    - (obs.N : ℝ) * Real.log θ.sigma

/-- The hard-prior acceptance condition of §4.4: radius ratio in (0,1),
luminosity ratio in (0,1), σ positive, and the physical-validity predicate
holding for the freshly updated SystemState. -/
def accepted (astro : AstroModel) (prev : SystemState) (θ : ParameterVector) : Prop :=
  0 < θ.rp ∧ θ.rp < 1 ∧ 0 < θ.L ∧ θ.L < 1 ∧ 0 < θ.sigma ∧
    astro.is_physical (updateState prev θ) = true

instance acceptedDecidable (astro : AstroModel) (prev : SystemState)
    (θ : ParameterVector) : Decidable (accepted astro prev θ) := by
  unfold accepted; infer_instance

/-- Modelled from the spec: the Log-Posterior Function of §4.4 (the
Question 4d cell is blank) — early rejection to the −∞ sentinel (⊥ in
`EReal`) when a hard prior fails, otherwise the computed log-likelihood. -/
def logPost (astro : AstroModel) (obs : Observation) (prev : SystemState)
    (θ : ParameterVector) : EReal :=
  if accepted astro prev θ then ((logLike astro obs prev θ : ℝ) : EReal) else ⊥

/-- The ensemble state retained between sampler segments: walker positions
plus the associated random-number-generator state. -/
structure EnsembleState where
  positions : List ParameterVector
  rngState : ℕ

/-- The general-purpose ensemble sampler of §6, consumed as a black box: a
deterministic transition on the ensemble state (walker positions + RNG). -/
structure EnsembleSampler where
  step : EnsembleState → EnsembleState

/-- Modelled from the spec: advancing the sampler n steps from a state,
recording the ensemble state after every step as the chain of that
segment. -/
def runChain (S : EnsembleSampler) : EnsembleState → ℕ → EnsembleState × List EnsembleState
  | st, 0 => (st, [])
  | st, Nat.succ n =>
      ((runChain S (S.step st) n).1, S.step st :: (runChain S (S.step st) n).2)

/-- Modelled from the spec: the Bayesian Fitting Engine's burn-in/production
schedule (the Question 4e cell is blank) — run M1 burn-in steps, discard that
segment's chain entirely (sampler.reset()), and run M2 production steps from
the retained terminal ensemble state, keeping only the production chain. -/
def fitRun (S : EnsembleSampler) (init : EnsembleState) (M1 M2 : ℕ) :
    EnsembleState × List EnsembleState :=
  runChain S (runChain S init M1).1 M2

/-- Modelled from the spec: §5 — the sampler evaluates the Log-Posterior
Function independently for each of W walkers per step, so a run of M steps
with W walkers performs W·M log-likelihood evaluations. -/
def logLikeEvals (W M : ℕ) : ℕ := W * M

/-- Modelled from the spec: the Initialization jitter of §4.5 in one
parameter dimension (the Question 4e cell is blank) — independent
multiplicative (1e-5·θ0·r) and additive (1e-5·r) perturbations per walker
around the point estimate θ0. -/
def initWalker {W : ℕ} (θ0j : ℝ) (mult addJ : Fin W → ℝ) (w : Fin W) : ℝ :=
  θ0j + 1e-5 * θ0j * mult w + 1e-5 * addJ w

/-- The mean of a quantity over the W walkers. -/
def walkerMean {W : ℕ} (f : Fin W → ℝ) : ℝ := (∑ w, f w) / W

/-- The variance of a quantity across the W walkers. -/
def walkerVariance {W : ℕ} (f : Fin W → ℝ) : ℝ :=
  (∑ w, (f w - walkerMean f) ^ 2) / W

/-- Planck constant in J·s, as in astropy's const.h.value. -/
def hPlanck : ℝ := 6.62607015e-34

/-- Speed of light in m/s, as in astropy's const.c.value. -/
def cLight : ℝ := 299792458

/-- Boltzmann constant in J/K, as in astropy's const.k_B.value. -/
def kBoltz : ℝ := 1.380649e-23

/-- The 4.5 μm wavelength hard-coded in inversePlanck. -/
def wav45 : ℝ := 4.5e-6

/-- The notebook's inversePlanck function (Question 4h cell), embedded over
exact reals: h·c/(k_B·λ)·(log(1 + (exp(h·c/(k_B·λ·Tstar)) − 1)/(fp_fstar/rp_rs²)))⁻¹. -/
def inversePlanck (fp_fstar rp_rs Tstar : ℝ) : ℝ :=
  hPlanck * cLight / (kBoltz * wav45) *
    (Real.log (1 + (Real.exp (hPlanck * cLight / (kBoltz * wav45 * Tstar)) - 1) /
      (fp_fstar / rp_rs ^ 2)))⁻¹

/-- The eclipse duration used by the phase-curve cell: 178 minutes in days. -/
def eclDuration : ℝ := 178 / 60 / 24

/-- The sinusoidal phase-curve expression of the notebook's provided-model
cell, before in-eclipse zeroing. -/
def phasecurveRaw (tref porb t : ℝ) : ℝ :=
  0.003917 * (1 + 0.395 * (-1 + Real.cos (2 * Real.pi * (t - tref - porb / 2) / porb))
    - 0.136 * Real.sin (2 * Real.pi * (t - tref - porb / 2) / porb))

/-- The in-eclipse mask of the provided-model cell: strictly between
tref − porb/2 − eclDuration/2 and tref − porb/2 + eclDuration/2. -/
def inEclipse (tref porb t : ℝ) : Prop :=
  t < tref - porb / 2 + eclDuration / 2 ∧ tref - porb / 2 - eclDuration / 2 < t

instance inEclipseDecidable (tref porb t : ℝ) : Decidable (inEclipse tref porb t) := by
  unfold inEclipse; infer_instance

/-- The 1000-point time grid linspace(tstart, tstart + porb, 1000) with
tstart = tref − porb/2 − 0.1·porb, so t_i = tstart + i·porb/999. -/
def timeGrid (tref porb : ℝ) (i : Fin 1000) : ℝ :=
  (tref - porb / 2 - 0.1 * porb) + (i : ℝ) * porb / 999

/-- The notebook's provided phasecurve array: the sinusoid everywhere, with
elements in the open in-eclipse window set to zero. -/
def providedPhasecurve (tref porb : ℝ) (i : Fin 1000) : ℝ :=
  if inEclipse tref porb (timeGrid tref porb i) then 0
  else phasecurveRaw tref porb (timeGrid tref porb i)

/-- A concrete coefficient vector used by the witnesses. -/
def testCoeffs : SysCoeffs := ⟨1, 0, 0, 0, 0, 0⟩

/-- A concrete in-range ParameterVector used by the witnesses. -/
def testTheta : ParameterVector := ⟨0.1, 0.1, 1 / 2, 1 / 2, 0, 0, testCoeffs, 1⟩

/-- A concrete ParameterVector with radius ratio exactly 0, used by the
boundary witness. -/
def testThetaZero : ParameterVector := ⟨0.1, 0.1, 0, 1 / 2, 0, 0, testCoeffs, 1⟩

/-- Concrete fixed orbital elements used by the witnesses. -/
def testOrbit : OrbitParams := ⟨5, 90, 1, 0, 30, 0⟩

/-- A concrete previous SystemState used by the witnesses. -/
def testState : SystemState := ⟨⟨0.4, 0.26, 0.1, 0, 0, 0⟩, testOrbit⟩

/-- A concrete one-exposure Observation used by the witnesses. -/
def testObs : Observation := ⟨[0], [1], [0], [0], rfl, rfl, rfl⟩

/-- A concrete AstroModel used by the witnesses: constant unit flux and an
always-true validity predicate. -/
def testAstro : AstroModel :=
  ⟨fun _ ts => ts.map (fun _ => 1), fun _ ts => by simp, fun _ => true⟩

/-- C5: the Systematics Model is linear in its coefficients — scaling all six
coefficients by k scales the sensitivity array elementwise by k, for any
centroid arrays x, y. -/
theorem sensitivity_linear_in_coeffs (c : SysCoeffs) (k : ℝ) (xs ys : List ℝ) :
    sensitivityArr (scaleCoeffs k c) xs ys =
      (sensitivityArr c xs ys).map (fun s => k * s) := by
  unfold sensitivityArr
  rw [List.map_zipWith]
  have h : (fun x y => sensitivity (scaleCoeffs k c) x y) =
      fun x y => k * sensitivity c x y := by
    funext x y
    unfold sensitivity scaleCoeffs
    ring
  rw [h]

/-- C3: the Combined Forward Model returns the elementwise product of the
astrophysical flux over the observation times and the systematics
sensitivity over the observation centroids, and its output length equals the
Observation length N exactly. -/
theorem combinedModel_product_and_length (astro : AstroModel) (obs : Observation)
    (prev : SystemState) (θ : ParameterVector) :
    combinedModel astro obs prev θ =
      List.zipWith (fun f s => f * s) (astro.flux (updateState prev θ) obs.times)
        (sensitivityArr θ.sys obs.xs obs.ys) ∧
    (combinedModel astro obs prev θ).length = obs.N := by
  refine ⟨rfl, ?_⟩
  unfold combinedModel sensitivityArr Observation.N
  simp [List.length_zipWith, astro.flux_len, obs.xs_len, obs.ys_len]

/-- C1: the Log-Posterior Function returns the −∞ sentinel iff the radius
ratio is outside (0,1), or the luminosity ratio is outside (0,1), or σ ≤ 0,
or the physical-validity predicate is false; in particular the boundary
values rp = 0, rp = 1, L = 0, L = 1, σ = 0 are rejected, and every accepted
vector gets a finite computed real value. -/
theorem logPost_bot_iff (astro : AstroModel) (obs : Observation) (prev : SystemState)
    (θ : ParameterVector) :
    (logPost astro obs prev θ = ⊥ ↔
      (θ.rp ≤ 0 ∨ 1 ≤ θ.rp) ∨ (θ.L ≤ 0 ∨ 1 ≤ θ.L) ∨ θ.sigma ≤ 0 ∨
        astro.is_physical (updateState prev θ) = false) ∧
    (θ.rp = 0 → logPost astro obs prev θ = ⊥) ∧
    (θ.rp = 1 → logPost astro obs prev θ = ⊥) ∧
    (θ.L = 0 → logPost astro obs prev θ = ⊥) ∧
    (θ.L = 1 → logPost astro obs prev θ = ⊥) ∧
    (θ.sigma = 0 → logPost astro obs prev θ = ⊥) ∧
    (accepted astro prev θ → ∃ r : ℝ, logPost astro obs prev θ = (r : EReal)) := by
  have hkey : ¬ accepted astro prev θ ↔
      (θ.rp ≤ 0 ∨ 1 ≤ θ.rp) ∨ (θ.L ≤ 0 ∨ 1 ≤ θ.L) ∨ θ.sigma ≤ 0 ∨
        astro.is_physical (updateState prev θ) = false := by
    unfold accepted
    constructor
    · intro h
      by_contra hd
      push_neg at hd
      obtain ⟨⟨h1, h2⟩, ⟨h3, h4⟩, h5, h6⟩ := hd
      refine h ⟨h1, h2, h3, h4, h5, ?_⟩
      cases hb : astro.is_physical (updateState prev θ) with
      | false => exact absurd hb h6
      | true => rfl
    · rintro ((h | h) | (h | h) | h | h) ⟨a1, a2, a3, a4, a5, a6⟩
      · linarith
      · linarith
      · linarith
      · linarith
      · linarith
      · rw [a6] at h
        exact Bool.noConfusion h
  by_cases hacc : accepted astro prev θ
  · have hval : logPost astro obs prev θ = ((logLike astro obs prev θ : ℝ) : EReal) := by
      unfold logPost
      rw [if_pos hacc]
    refine ⟨?_, ?_, ?_, ?_, ?_, ?_, fun _ => ⟨logLike astro obs prev θ, hval⟩⟩
    · constructor
      · intro h
        rw [hval] at h
        exact absurd h (EReal.coe_ne_bot _)
      · intro h
        exact absurd hacc (hkey.mpr h)
    · intro h0
      exact absurd (h0 ▸ hacc.1) (lt_irrefl (0 : ℝ))
    · intro h0
      have := hacc.2.1
      rw [h0] at this
      exact absurd this (lt_irrefl (1 : ℝ))
    · intro h0
      exact absurd (h0 ▸ hacc.2.2.1) (lt_irrefl (0 : ℝ))
    · intro h0
      have := hacc.2.2.2.1
      rw [h0] at this
      exact absurd this (lt_irrefl (1 : ℝ))
    · intro h0
      exact absurd (h0 ▸ hacc.2.2.2.2.1) (lt_irrefl (0 : ℝ))
  · have hbot : logPost astro obs prev θ = ⊥ := by
      unfold logPost
      rw [if_neg hacc]
    exact ⟨⟨fun _ => hkey.mp hacc, fun _ => hbot⟩, fun _ => hbot, fun _ => hbot,
      fun _ => hbot, fun _ => hbot, fun _ => hbot, fun h => absurd h hacc⟩

/-- Witness for C1: the boundary vector with radius ratio exactly 0 is
rejected with the −∞ sentinel. -/
theorem logPost_bot_iff_witness :
    testThetaZero.rp = 0 ∧ logPost testAstro testObs testState testThetaZero = ⊥ :=
  ⟨rfl, (logPost_bot_iff testAstro testObs testState testThetaZero).2.1 rfl⟩

/-- C2: for every ParameterVector accepted by the priors, the Log-Posterior
Function returns exactly -0.5·Σ((o_i − p_i)/σ)² − N·log(σ) with the
predicted flux from the Combined Forward Model. -/
theorem logPost_accepted_value (astro : AstroModel) (obs : Observation)
    (prev : SystemState) (θ : ParameterVector) (h : accepted astro prev θ) :
    logPost astro obs prev θ =
      ((-0.5 * (List.zipWith (fun o p => ((o - p) / θ.sigma) ^ 2) obs.flux
          (combinedModel astro obs prev θ)).sum
        - (obs.N : ℝ) * Real.log θ.sigma : ℝ) : EReal) := by
  unfold logPost
  rw [if_pos h]
  unfold logLike chiSq
  rfl

/-- Witness for C2: the concrete in-range vector is accepted and its
log-posterior is the computed log-likelihood value. -/
theorem logPost_accepted_value_witness :
    accepted testAstro testState testTheta ∧
    logPost testAstro testObs testState testTheta =
      ((-0.5 * (List.zipWith (fun o p => ((o - p) / testTheta.sigma) ^ 2) testObs.flux
          (combinedModel testAstro testObs testState testTheta)).sum
        - (testObs.N : ℝ) * Real.log testTheta.sigma : ℝ) : EReal) := by
  have hacc : accepted testAstro testState testTheta := by
    refine ⟨?_, ?_, ?_, ?_, ?_, rfl⟩ <;> norm_num [testTheta]
  exact ⟨hacc, logPost_accepted_value testAstro testObs testState testTheta hacc⟩

/-- A second previous SystemState sharing testState's orbital elements but
with different (stale) fitted descriptor values. -/
def testStateStale : SystemState := ⟨⟨0, 0, 0.2, 0.001, 0.3, 0⟩, testOrbit⟩

/-- C7: the SystemState consulted by the Log-Posterior Function is the one
freshly updated from the ParameterVector being scored — its descriptor
fields come from that vector, and two previous states with the same fixed
orbital elements (differing only in stale fitted values) give identical
updated states and identical log-posterior values. -/
theorem logPost_state_fresh (astro : AstroModel) (obs : Observation)
    (prev₁ prev₂ : SystemState) (θ : ParameterVector)
    (horb : prev₁.orbit = prev₂.orbit) :
    (updateState prev₁ θ).fitted = fittedOfVector θ ∧
    updateState prev₁ θ = updateState prev₂ θ ∧
    logPost astro obs prev₁ θ = logPost astro obs prev₂ θ := by
  have hupd : updateState prev₁ θ = updateState prev₂ θ := by
    unfold updateState
    rw [horb]
  refine ⟨rfl, hupd, ?_⟩
  unfold logPost accepted logLike combinedModel
  simp only [hupd]

/-- Witness for C7: a fresh and a stale previous state with the same orbital
elements are indistinguishable to the Log-Posterior Function. -/
theorem logPost_state_fresh_witness :
    testState.orbit = testStateStale.orbit ∧
    ((updateState testState testTheta).fitted = fittedOfVector testTheta ∧
      updateState testState testTheta = updateState testStateStale testTheta ∧
      logPost testAstro testObs testState testTheta =
        logPost testAstro testObs testStateStale testTheta) :=
  ⟨rfl, logPost_state_fresh testAstro testObs testState testStateStale testTheta rfl⟩

/-- Closed form of a sampler segment: the terminal state is the n-th iterate
of the step function, and the recorded chain is exactly the states after
steps 1..n. -/
theorem runChain_closed (S : EnsembleSampler) (n : ℕ) (st : EnsembleState) :
    runChain S st n =
      (S.step^[n] st, (List.range n).map (fun k => S.step^[k + 1] st)) := by
  induction n generalizing st with
  | zero => simp [runChain]
  | succ n ih =>
      show ((runChain S (S.step st) n).1, S.step st :: (runChain S (S.step st) n).2) = _
      rw [ih (S.step st)]
      dsimp only
      congr 1
      · rw [List.range_succ_eq_map]
        simp only [List.map_cons, List.map_map]
        congr 1

/-- C4: the burn-in chain is discarded entirely — only the terminal ensemble
state (the M1-th iterate, walker positions plus RNG state) is retained; the
production phase runs exactly from that retained state, and the retained
chain afterwards is exactly the M2 production records (the iterates of the
retained state), with no burn-in records. -/
theorem fitRun_production_only (S : EnsembleSampler) (init : EnsembleState)
    (M1 M2 : ℕ) :
    (runChain S init M1).1 = S.step^[M1] init ∧
    fitRun S init M1 M2 =
      (S.step^[M2] ((runChain S init M1).1),
        (List.range M2).map (fun k => S.step^[k + 1] ((runChain S init M1).1))) := by
  constructor
  · rw [runChain_closed]
  · unfold fitRun
    exact runChain_closed S M2 _

/-- C6: when the point estimate of a parameter is exactly zero, the additive
jitter term still spreads the walkers — any realization in which two additive
draws differ yields strictly positive variance across walkers in that
dimension. -/
theorem initWalker_variance_pos {W : ℕ} (θ0j : ℝ) (mult addJ : Fin W → ℝ)
    (h0 : θ0j = 0) (w w' : Fin W) (hne : addJ w ≠ addJ w') :
    0 < walkerVariance (initWalker θ0j mult addJ) := by
  subst h0
  have hval : ∀ v : Fin W, initWalker (0 : ℝ) mult addJ v = 1e-5 * addJ v := by
    intro v
    unfold initWalker
    ring
  have hfne : initWalker (0 : ℝ) mult addJ w ≠ initWalker (0 : ℝ) mult addJ w' := by
    rw [hval w, hval w']
    intro h
    exact hne (mul_left_cancel₀ (by norm_num : (1e-5 : ℝ) ≠ 0) h)
  have hWpos : 0 < W := w.pos
  unfold walkerVariance
  apply div_pos
  · have hterm : ∃ v : Fin W,
        initWalker (0 : ℝ) mult addJ v ≠ walkerMean (initWalker (0 : ℝ) mult addJ) := by
      by_contra hall
      push_neg at hall
      exact hfne ((hall w).trans (hall w').symm)
    obtain ⟨v, hv⟩ := hterm
    refine Finset.sum_pos' (fun i _ => sq_nonneg _) ⟨v, Finset.mem_univ v, ?_⟩
    have hsub : initWalker (0 : ℝ) mult addJ v
        - walkerMean (initWalker (0 : ℝ) mult addJ) ≠ 0 := sub_ne_zero.mpr hv
    exact (sq_nonneg _).lt_of_ne (Ne.symm (pow_ne_zero 2 hsub))
  · exact_mod_cast hWpos

/-- Concrete additive draws for the C6 witness: walker w receives w. -/
def testAdd : Fin 2 → ℝ := fun w => (w.val : ℝ)

/-- Witness for C6: with point estimate 0 and two distinct additive draws,
the two-walker ensemble has strictly positive variance. -/
theorem initWalker_variance_pos_witness :
    ((0 : ℝ) = 0 ∧ testAdd 0 ≠ testAdd 1) ∧
    0 < walkerVariance (initWalker (0 : ℝ) (fun _ => 0) testAdd) := by
  have hne : testAdd 0 ≠ testAdd 1 := by
    norm_num [testAdd]
  exact ⟨⟨rfl, hne⟩, initWalker_variance_pos 0 (fun _ => 0) testAdd rfl 0 1 hne⟩

/-- Counterexample to C8 as stated: with 50 walkers and 2000 steps, one
log-posterior evaluation per walker per step gives 100000 evaluations, not
10000 (the notebook's parenthetical miscounts 50·2000). -/
theorem logLikeEvals_50_2000_ne_10000 : logLikeEvals 50 2000 ≠ 10000 := by
  decide

/-- C8 amended: a burn-in run with 50 walkers and 2000 steps performs
100000 log-likelihood evaluations. -/
theorem logLikeEvals_50_2000_eq_100000 : logLikeEvals 50 2000 = 100000 := by
  decide

/-- C9: under exact real arithmetic, inversePlanck is a right inverse of the
blackbody flux-ratio map at λ = 4.5 μm — feeding it the flux ratio
rp_rs²·(exp(h·c/(k_B·λ·Tstar)) − 1)/(exp(h·c/(k_B·λ·T)) − 1) recovers T for
all positive Tstar, rp_rs, T. -/
theorem inversePlanck_right_inverse (Tstar rp_rs T : ℝ)
    (hTs : 0 < Tstar) (hr : 0 < rp_rs) (hT : 0 < T) :
    inversePlanck
      (rp_rs ^ 2 * (Real.exp (hPlanck * cLight / (kBoltz * wav45 * Tstar)) - 1) /
        (Real.exp (hPlanck * cLight / (kBoltz * wav45 * T)) - 1)) rp_rs Tstar = T := by
  have hhc : 0 < hPlanck * cLight := by
    unfold hPlanck cLight
    norm_num
  have hkw : 0 < kBoltz * wav45 := by
    unfold kBoltz wav45
    norm_num
  have hAs : 0 < hPlanck * cLight / (kBoltz * wav45 * Tstar) := by positivity
  have hAT : 0 < hPlanck * cLight / (kBoltz * wav45 * T) := by positivity
  have hEs : 1 < Real.exp (hPlanck * cLight / (kBoltz * wav45 * Tstar)) :=
    Real.one_lt_exp_iff.mpr hAs
  have hET : 1 < Real.exp (hPlanck * cLight / (kBoltz * wav45 * T)) :=
    Real.one_lt_exp_iff.mpr hAT
  have hEsne : Real.exp (hPlanck * cLight / (kBoltz * wav45 * Tstar)) - 1 ≠ 0 := by
    linarith
  have hETne : Real.exp (hPlanck * cLight / (kBoltz * wav45 * T)) - 1 ≠ 0 := by
    linarith
  have hrp2 : rp_rs ^ 2 ≠ 0 := pow_ne_zero 2 hr.ne'
  unfold inversePlanck
  have h1 : rp_rs ^ 2 * (Real.exp (hPlanck * cLight / (kBoltz * wav45 * Tstar)) - 1) /
        (Real.exp (hPlanck * cLight / (kBoltz * wav45 * T)) - 1) / rp_rs ^ 2 =
      (Real.exp (hPlanck * cLight / (kBoltz * wav45 * Tstar)) - 1) /
        (Real.exp (hPlanck * cLight / (kBoltz * wav45 * T)) - 1) := by
    field_simp
    ring
  rw [h1]
  have h2 : (Real.exp (hPlanck * cLight / (kBoltz * wav45 * Tstar)) - 1) /
        ((Real.exp (hPlanck * cLight / (kBoltz * wav45 * Tstar)) - 1) /
          (Real.exp (hPlanck * cLight / (kBoltz * wav45 * T)) - 1)) =
      Real.exp (hPlanck * cLight / (kBoltz * wav45 * T)) - 1 := by
    rw [div_div_eq_mul_div]
    exact mul_div_cancel_left₀ _ hEsne
  rw [h2]
  have h3 : (1 : ℝ) + (Real.exp (hPlanck * cLight / (kBoltz * wav45 * T)) - 1) =
      Real.exp (hPlanck * cLight / (kBoltz * wav45 * T)) := by
    ring
  rw [h3, Real.log_exp]
  rw [inv_div]
  field_simp
  ring

/-- Witness for C9: at Tstar = rp_rs = T = 1 the recovered temperature is 1. -/
theorem inversePlanck_right_inverse_witness :
    (0 : ℝ) < 1 ∧
    inversePlanck
      ((1 : ℝ) ^ 2 * (Real.exp (hPlanck * cLight / (kBoltz * wav45 * 1)) - 1) /
        (Real.exp (hPlanck * cLight / (kBoltz * wav45 * 1)) - 1)) 1 1 = 1 :=
  ⟨by norm_num,
    inversePlanck_right_inverse 1 1 1 (by norm_num) (by norm_num) (by norm_num)⟩

/-- C10: in the provided phasecurve array, every element whose time lies
strictly inside the eclipse window
(tref − porb/2 − eclDuration/2, tref − porb/2 + eclDuration/2) is exactly 0,
and every element outside that open window equals the stated sinusoidal
expression. -/
theorem providedPhasecurve_cases (tref porb : ℝ) (i : Fin 1000) :
    (tref - porb / 2 - eclDuration / 2 < timeGrid tref porb i ∧
        timeGrid tref porb i < tref - porb / 2 + eclDuration / 2 →
      providedPhasecurve tref porb i = 0) ∧
    (¬(tref - porb / 2 - eclDuration / 2 < timeGrid tref porb i ∧
        timeGrid tref porb i < tref - porb / 2 + eclDuration / 2) →
      providedPhasecurve tref porb i =
        0.003917 * (1 + 0.395 * (-1 + Real.cos (2 * Real.pi *
            (timeGrid tref porb i - tref - porb / 2) / porb))
          - 0.136 * Real.sin (2 * Real.pi *
            (timeGrid tref porb i - tref - porb / 2) / porb))) := by
  constructor
  · intro h
    have hin : inEclipse tref porb (timeGrid tref porb i) := ⟨h.2, h.1⟩
    unfold providedPhasecurve
    rw [if_pos hin]
  · intro h
    have hout : ¬ inEclipse tref porb (timeGrid tref porb i) := by
      intro hin
      exact h ⟨hin.2, hin.1⟩
    unfold providedPhasecurve
    rw [if_neg hout]
    unfold phasecurveRaw
    rfl

/-- Witness for C10: with tref = 0 and porb = 1, grid point 100 lies inside
the eclipse window and its phasecurve value is exactly 0. -/
theorem providedPhasecurve_cases_witness :
    ((0 : ℝ) - 1 / 2 - eclDuration / 2 < timeGrid 0 1 ⟨100, by norm_num⟩ ∧
      timeGrid 0 1 ⟨100, by norm_num⟩ < 0 - 1 / 2 + eclDuration / 2) ∧
    providedPhasecurve 0 1 ⟨100, by norm_num⟩ = 0 := by
  have hwin : (0 : ℝ) - 1 / 2 - eclDuration / 2 < timeGrid 0 1 ⟨100, by norm_num⟩ ∧
      timeGrid 0 1 ⟨100, by norm_num⟩ < 0 - 1 / 2 + eclDuration / 2 := by
    unfold timeGrid eclDuration
    norm_num
  exact ⟨hwin, (providedPhasecurve_cases 0 1 ⟨100, by norm_num⟩).1 hwin⟩

end
